import Mathlib

/-!
Verification development for the sellola-sockets real-time chat server.

The server relays chat messages between two marketplace participants over a
commercial thread (RFQ, Quotation, or Product inquiry).  We shallowly embed
the relevant parts of the source:

* `waitForDB`                – the readiness gate (bounded retry loop);
* `authenticate`             – the socket.io JWT authentication middleware;
* `getProductWithShop`       – product + shop resolver (native driver);
* `saveMessageNative`        – message persistence (native driver, validation,
                               timeouts, sender enrichment);
* the event handlers `join-quotation-room`, `join-rfq-room`,
  `join-product-room`, `send-message`, `typing` / `stop-typing`.

Identities (Mongo ObjectIds, user ids, thread ids) are modelled as `String`;
`toString` on an ObjectId is then the identity function.  JavaScript falsiness
of an optional string value ("" , null, undefined are all falsy) is modelled
by normalising `some ""` to `none` via `jsOptId` at the points where the
source performs a truthiness test.  External effects (database lookups,
inserts, timers racing promises) are passed in as explicit environment values:
an `Except String α` is an operation that either threw an error with the given
message or returned a value.
-/

namespace Sellola

/-- Identities and Mongo ObjectIds are strings in the model. -/
abbrev Id := String

/-- JavaScript `a || b` for strings: `a` unless it is falsy (empty). -/
def jsOrStr (a b : String) : String := if a = "" then b else a

/-- Normalise a JS-optional string: a present-but-empty string is falsy,
so it behaves exactly like an absent field under `if (!x)` tests. -/
def jsOptId (o : Option Id) : Option Id :=
  match o with
  | some s => if s = "" then none else some s
  | none => none

/-- `pat` is a prefix of `l` (character lists). -/
def chStarts : List Char → List Char → Bool
  | [], _ => true
  | _ :: _, [] => false
  | a :: as, b :: bs => a == b && chStarts as bs

/-- `pat` occurs somewhere inside `l`; models JavaScript `String.includes`. -/
def chHasSub (pat : List Char) : List Char → Bool
  | [] => pat.isEmpty
  | l@(_ :: t) => chStarts pat l || chHasSub pat t

/-- JavaScript `s.includes(pat)`. -/
def jsIncludes (s pat : String) : Bool := chHasSub pat.data s.data

/-- Replace the first occurrence of `pat` in a character list by `repl`;
models JavaScript `String.replace` with a string pattern (first match only). -/
def replFirstChars (pat repl : List Char) : List Char → List Char
  | [] => []
  | c :: rest =>
      if chStarts pat (c :: rest) then repl ++ List.drop pat.length (c :: rest)
      else c :: replFirstChars pat repl rest

/-- JavaScript `s.replace(pat, repl)` (first occurrence only). -/
def jsReplaceFirst (s pat repl : String) : String :=
  ⟨replFirstChars pat.data repl.data s.data⟩

/-- Lexicographic comparison of character lists by code point, modelling the
default JavaScript `Array.prototype.sort()` string comparison. -/
def charListLe : List Char → List Char → Bool
  | [], _ => true
  | _ :: _, [] => false
  | a :: as, b :: bs =>
      if a.toNat < b.toNat then true
      else if b.toNat < a.toNat then false
      else charListLe as bs

/-- String comparison used by the JS `sort()` on the two participant ids. -/
def strLe (a b : String) : Bool := charListLe a.data b.data

/-- `[a, b].sort()` for a two-element array of strings. -/
def sortPair (a b : Id) : Id × Id := if strLe a b then (a, b) else (b, a)

theorem charListLe_total (as bs : List Char) :
    charListLe as bs = true ∨ charListLe bs as = true := by
  induction as generalizing bs with
  | nil => exact Or.inl rfl
  | cons a as ih =>
    cases bs with
    | nil => exact Or.inr rfl
    | cons b bs =>
      simp only [charListLe]
      rcases Nat.lt_trichotomy a.toNat b.toNat with h | h | h
      · left; simp [h]
      · have h1 : ¬ a.toNat < b.toNat := by omega
        have h2 : ¬ b.toNat < a.toNat := by omega
        rcases ih bs with hc | hc
        · left; simp [h1, h2, hc]
        · right; simp [h1, h2, hc]
      · right; simp [h]

theorem charListLe_antisymm : ∀ as bs : List Char,
    charListLe as bs = true → charListLe bs as = true → as = bs := by
  intro as
  induction as with
  | nil =>
    intro bs _ h2
    cases bs with
    | nil => rfl
    | cons b bs => simp [charListLe] at h2
  | cons a as ih =>
    intro bs h1 h2
    cases bs with
    | nil => simp [charListLe] at h1
    | cons b bs =>
      simp only [charListLe] at h1 h2
      rcases Nat.lt_trichotomy a.toNat b.toNat with h | h | h
      · have h2' : ¬ b.toNat < a.toNat := by omega
        simp [h, h2'] at h2
      · have hab : a = b := Char.eq_of_val_eq (UInt32.ext h)
        subst hab
        have h1' : ¬ a.toNat < a.toNat := by omega
        simp [h1'] at h1 h2
        rw [ih bs h1 h2]
      · have h1' : ¬ a.toNat < b.toNat := by omega
        simp [h, h1'] at h1

theorem sortPair_comm (a b : Id) : sortPair a b = sortPair b a := by
  unfold sortPair strLe
  cases h1 : charListLe a.data b.data <;> cases h2 : charListLe b.data a.data
  · rcases charListLe_total a.data b.data with h | h
    · rw [h] at h1; cases h1
    · rw [h] at h2; cases h2
  · rfl
  · rfl
  · have : a = b := String.ext (charListLe_antisymm _ _ h1 h2)
    subst this; rfl

/-! ## Readiness gate (`waitForDB`) -/

/-- One observation of the backend made by an attempt of `waitForDB`:
the mongoose `readyState`, whether `mongoose.connection.db` is non-null,
and whether the liveness probe (`admin().ping()` followed by
`countDocuments` on the `users` collection) succeeds. -/
structure DBObs where
  readyState : Nat
  dbAvailable : Bool
  probeOk : Bool
deriving DecidableEq, Repr

/-- The attempt fully succeeds: state is connected (1), the db handle
exists, and the probe goes through. -/
def attemptOk (o : DBObs) : Bool :=
  o.readyState == 1 && o.dbAvailable && o.probeOk

/-- The retry loop of `waitForDB`, with the loop counter `i` made explicit:
attempt `i` observes `obs i`.  On a successful probe it returns `true`; on a
probe failure with the state flag connected it waits and continues
(a transient miss); on a disconnected state it waits and continues.  With the
fuel exhausted it returns `false`. -/
def waitForDBAux (obs : Nat → DBObs) : Nat → Nat → Bool
  | _, 0 => false
  | i, fuel + 1 =>
      let o := obs i
      if o.readyState = 1 ∧ o.dbAvailable = true then
        if o.probeOk then true
        else waitForDBAux obs (i + 1) fuel
      else waitForDBAux obs (i + 1) fuel

/-- `waitForDB(maxRetries, delay)`: runs at most `maxRetries` attempts against
the stream of backend observations, returning `false` (DB not ready) when all
attempts are exhausted.  The delays only pace the loop and do not affect the
decision, so they are not modelled. -/
def waitForDB (obs : Nat → DBObs) (maxRetries : Nat) : Bool :=
  waitForDBAux obs 0 maxRetries

/-! ## Identity verifier (socket.io authentication middleware) -/

/-- Verification failures that `jwt.verify` can throw. -/
inductive VerifyError
  | malformed
  | expired
  | badSignature
deriving DecidableEq, Repr

/-- Connection handshake data: `socket.handshake.auth.token` and
`socket.handshake.headers.authorization`. -/
structure Handshake where
  authToken : Option String
  authorization : Option String
deriving DecidableEq, Repr

/-- Caller-observable outcome of the authentication middleware: the argument
passed to `next(...)`. -/
inductive AuthOutcome
  | tokenRequired
  | misconfigured
  | authFailed
  | authenticated (userId : String) (role : String)
deriving DecidableEq, Repr

/-- `headers.authorization?.replace("Bearer ", "")`: absent header yields
`none`; a present header has its first `"Bearer "` occurrence removed. -/
def bearerOf (o : Option String) : Option String :=
  o.map (fun s => jsReplaceFirst s "Bearer " "")

/-- `socket.handshake.auth.token || headers.authorization?.replace(...)`:
falls through to the header when the auth field is falsy (absent or ""). -/
def extractToken (h : Handshake) : Option String :=
  match h.authToken with
  | some t => if t = "" then bearerOf h.authorization else some t
  | none => bearerOf h.authorization

/-- The socket.io authentication middleware.  `verify` models `jwt.verify`
with the given secret; `jwtSecret` is `JWT_SECRET || process.env.JWT_SECRET`
with `""` meaning unset.  All verification failures are caught by the
surrounding try/catch and collapsed to `authFailed`. -/
def authenticate (verify : String → String → Except VerifyError (String × String))
    (jwtSecret : String) (h : Handshake) : AuthOutcome :=
  match extractToken h with
  | none => .tokenRequired
  | some t =>
      if t = "" then .tokenRequired
      else if jwtSecret = "" then .misconfigured
      else
        match verify t jwtSecret with
        | .error _ => .authFailed
        | .ok (u, r) => .authenticated u r

/-! ## Thread documents -/

/-- Quotation document: `quotedBy` and the reference to its parent RFQ
(the handler re-fetches the RFQ by this id). -/
structure QuotationDoc where
  quotedBy : Id
  rfq : Id
deriving DecidableEq, Repr

/-- RFQ document: only `requestedBy` is consulted. -/
structure RFQDoc where
  requestedBy : Id
deriving DecidableEq, Repr

/-- Shop document: its `owner` field (may be absent on the document). -/
structure ShopDoc where
  owner : Option Id
deriving DecidableEq, Repr

/-- Raw product document as returned by `products.findOne`: only its `shop`
reference matters here (may be absent). -/
structure RawProduct where
  shopRef : Option Id
deriving DecidableEq, Repr

/-- Product after `getProductWithShop`: the `shop` field has been replaced by
the resolved shop document, or `none` when absent/unresolvable. -/
structure ProductDoc where
  shop : Option ShopDoc
deriving DecidableEq, Repr

/-- `getProductWithShop(productId)`: fetches the product with the native
driver, then — when the product carries a shop reference — fetches the shop
and grafts it onto the product.  A failure of the shop fetch is caught and
yields `shop = null` (non-fatal); a failure of the product fetch propagates.
`findProduct` / `findShop` are the outcomes of the two `findOne` calls.
(ObjectId conversion of a malformed id, which throws in the source, is part
of the `findProduct` error case in this model since ids are plain strings.) -/
def getProductWithShop (dbAvailable : Bool)
    (findProduct : Except String (Option RawProduct))
    (findShop : Except String (Option ShopDoc)) :
    Except String (Option ProductDoc) :=
  if ¬ dbAvailable then .error "Database not available"
  else
    match findProduct with
    | .error e => .error e
    | .ok none => .ok none
    | .ok (some p) =>
        match p.shopRef with
        | none => .ok (some ⟨none⟩)
        | some _ =>
            match findShop with
            | .error _ => .ok (some ⟨none⟩)
            | .ok s => .ok (some ⟨s⟩)

/-! ## Message store (`saveMessageNative`) -/

/-- A message draft as passed to `saveMessageNative` by the send-message
handler; the thread-reference fields already carry the `x || null`
normalisation performed by the handler. -/
structure Draft where
  quotation : Option Id
  rfq : Option Id
  product : Option Id
  sender : Id
  receiver : Id
  message : String
  attachments : List String
deriving DecidableEq, Repr

/-- The message document handed to `insertOne` (after undefined thread
fields have been removed). -/
structure MessageDoc where
  quotation : Option Id
  rfq : Option Id
  product : Option Id
  sender : Id
  receiver : Id
  message : String
  attachments : List String
  readAt : Option Nat
  createdAt : Nat
deriving DecidableEq, Repr

/-- Minimal sender projection `{ username, email, profile }` fetched from the
`users` collection. -/
structure UserProj where
  uid : Id
  username : String
  email : String
  profile : String
deriving DecidableEq, Repr

/-- The `sender` field of a stored message: the raw ObjectId as stored, or
the populated user projection after successful enrichment. -/
inductive SenderVal
  | oid (i : Id)
  | proj (u : UserProj)
deriving DecidableEq, Repr

/-- The stored message as read back by `findOne` after the insert. -/
structure StoredMessage where
  mid : Id
  quotation : Option Id
  rfq : Option Id
  product : Option Id
  sender : SenderVal
  receiver : Id
  message : String
  attachments : List String
  readAt : Option Nat
  createdAt : Nat
deriving DecidableEq, Repr

deriving instance DecidableEq for Except

/-- Backend environment of one `saveMessageNative` call: connection state,
the ping, the clock, and the outcomes of the three raced driver operations.
`insertResult = .ok none` models a resolved insert with no `insertedId`;
an `.error` carries the thrown message (e.g. the literal
"Insert operation timeout after 8 seconds" when the timeout promise wins). -/
structure SaveEnv where
  readyState : Nat
  dbAvailable : Bool
  ping : Except String Unit
  now : Nat
  insertResult : Except String (Option Id)
  findResult : Except String (Option StoredMessage)
  senderLookup : Except String (Option UserProj)
deriving DecidableEq, Repr

/-- `saveMessageNative(messageData)`.  Returns the thrown-or-returned result
together with the list of insert operations actually issued against the
store (used to state "no write occurs").  The validation that at least one of
quotation/rfq/product is set runs before the insert; sender enrichment
failures are swallowed. -/
def saveMessageNative (env : SaveEnv) (d : Draft) :
    Except String StoredMessage × List MessageDoc :=
  if env.readyState ≠ 1 then (.error "Database not connected", [])
  else if ¬ env.dbAvailable then (.error "Database not available", [])
  else
    match env.ping with
    | .error e => (.error e, [])
    | .ok _ =>
        let doc : MessageDoc :=
          { quotation := jsOptId d.quotation
            rfq := jsOptId d.rfq
            product := jsOptId d.product
            sender := d.sender
            receiver := d.receiver
            message := d.message
            attachments := d.attachments
            readAt := none
            createdAt := env.now }
        if doc.quotation = none ∧ doc.rfq = none ∧ doc.product = none then
          (.error "Either quotation, rfq, or product must be provided", [])
        else
          match env.insertResult with
          | .error e => (.error e, [doc])
          | .ok none => (.error "Failed to save message", [doc])
          | .ok (some _) =>
              match env.findResult with
              | .error e => (.error e, [doc])
              | .ok none => (.error "Message saved but could not be retrieved", [doc])
              | .ok (some saved) =>
                  let saved' :=
                    match saved.sender with
                    | .oid _ =>
                        match env.senderLookup with
                        | .ok (some u) => { saved with sender := .proj u }
                        | _ => saved
                    | .proj _ => saved
                  (.ok saved', [doc])

/-! ## Events emitted by the handlers -/

/-- The message object broadcast after a successful save (lines formatting
`formattedMessage` in the send-message handler).  `toString` on our string
ids is the identity; the populated sender is projected to
`{ _id, username, email, profile }`, which is exactly what `SenderVal.proj`
carries, so the sender value is carried through unchanged. -/
structure FormattedMessage where
  mid : Id
  quotation : Option Id
  rfq : Option Id
  product : Option Id
  sender : SenderVal
  receiver : Id
  message : String
  attachments : List String
  readAt : Option Nat
  createdAt : Nat
deriving DecidableEq, Repr

/-- Build `formattedMessage` from the stored document. -/
def formatMessage (m : StoredMessage) : FormattedMessage :=
  { mid := m.mid
    quotation := m.quotation
    rfq := m.rfq
    product := m.product
    sender := m.sender
    receiver := m.receiver
    message := m.message
    attachments := m.attachments
    readAt := m.readAt
    createdAt := m.createdAt }

/-- Where an emission is addressed. -/
inductive Target
  | originator
  | room (name : String)
deriving DecidableEq, Repr

/-- Payload of an emitted event. -/
inductive Payload
  | err (message : String) (details : Option String)
  | joinedRoom (room : String) (threadId : Id)
  | msg (message : FormattedMessage) (quotationId : Option Id)
      (rfqId : Option Id) (productId : Option Id)
  | typingInd (userId : Id) (tflag : Bool)
deriving DecidableEq, Repr

/-- An observable action of a handler run. `disconnect` is included so that
"the handler never disconnects the session" is a statement about the model
rather than about the absence of a constructor. -/
inductive Action
  | emit (dest : Target) (event : String) (payload : Payload)
  | joinChannel (room : String)
  | leaveChannel (room : String)
  | dbWrite (doc : MessageDoc)
  | disconnect
deriving DecidableEq, Repr

/-- `socket.emit("error", { message, details? })`. -/
def errEmit (m : String) (d : Option String) : Action :=
  .emit .originator "error" (.err m d)

/-! ## join-quotation-room handler -/

/-- Environment of one join-quotation-room run: the readiness gate outcome
and the two lookups (`Quotation.findById(...).populate("rfq")` and
`RFQ.findById(quotation.rfq)`). -/
structure JQEnv where
  dbReady : Bool
  quotation : Except String (Option QuotationDoc)
  rfq : Except String (Option RFQDoc)
deriving DecidableEq, Repr

/-- The `join-quotation-room` handler.  A lookup that throws reaches the
catch block, which emits the wrapped error with details; reading
`rfq.requestedBy` off a null RFQ throws a TypeError which is likewise
caught. -/
def joinQuotationRoom (userId : Id) (quotationId : Option Id) (env : JQEnv) :
    List Action :=
  if ¬ env.dbReady then
    [errEmit "Database not connected. Please try again." none]
  else
    match jsOptId quotationId with
    | none => [errEmit "Quotation ID is required" none]
    | some qid =>
        match env.quotation with
        | .error e =>
            [errEmit ("Failed to join quotation room: " ++ jsOrStr e "Unknown error") (some e)]
        | .ok none => [errEmit "Quotation not found" none]
        | .ok (some q) =>
            match env.rfq with
            | .error e =>
                [errEmit ("Failed to join quotation room: " ++ jsOrStr e "Unknown error") (some e)]
            | .ok none =>
                let e := "Cannot read properties of null (reading requestedBy)"
                [errEmit ("Failed to join quotation room: " ++ jsOrStr e "Unknown error") (some e)]
            | .ok (some rfq) =>
                if q.quotedBy ≠ userId ∧ rfq.requestedBy ≠ userId then
                  [errEmit "Access denied" none]
                else
                  [.joinChannel ("quotation-" ++ qid),
                   .emit .originator "joined-room"
                     (.joinedRoom ("quotation-" ++ qid) qid)]

/-! ## join-rfq-room handler -/

/-- Environment of one join-rfq-room run. -/
structure JREnv where
  dbReady : Bool
  rfq : Except String (Option RFQDoc)
deriving DecidableEq, Repr

/-- The `join-rfq-room` handler. -/
def joinRfqRoom (userId : Id) (rfqId : Option Id) (env : JREnv) : List Action :=
  if ¬ env.dbReady then
    [errEmit "Database not connected. Please try again." none]
  else
    match jsOptId rfqId with
    | none => [errEmit "RFQ ID is required" none]
    | some rid =>
        match env.rfq with
        | .error e =>
            [errEmit ("Failed to join RFQ room: " ++ jsOrStr e "Unknown error") (some e)]
        | .ok none => [errEmit "RFQ not found" none]
        | .ok (some rfq) =>
            if rfq.requestedBy ≠ userId then
              [errEmit "Access denied" none]
            else
              [.joinChannel ("rfq-" ++ rid),
               .emit .originator "joined-room" (.joinedRoom ("rfq-" ++ rid) rid)]

/-! ## leave-room handler -/

/-- The `leave-room` handler. -/
def leaveRoom (room : Option String) : List Action :=
  match jsOptId room with
  | some r => [.leaveChannel r]
  | none => []

/-! ## join-product-room handler -/

/-- Room name computed by the join-product-room handler: the two user ids
are sorted (`[socket.userId, receiverId].sort()`) before composing
`product-{productId}-{sorted[0]}-{sorted[1]}`. -/
def joinProductRoomName (productId userId receiverId : Id) : String :=
  let userIds := sortPair userId receiverId
  "product-" ++ productId ++ "-" ++ userIds.1 ++ "-" ++ userIds.2

/-- Environment of one join-product-room run: the readiness gate, the
connection re-check, the raw product and shop lookups fed to
`getProductWithShop`, and whether the five-second race timer won. -/
structure JPEnv where
  dbReady : Bool
  connOk : Bool
  dbAvailable : Bool
  findProduct : Except String (Option RawProduct)
  findShop : Except String (Option ShopDoc)
  queryTimeout : Bool
deriving DecidableEq, Repr

/-- The catch block of join-product-room rewrites the error message
depending on the thrown text. -/
def jpCatchMessage (e : String) : String :=
  if jsIncludes e "buffering timed out" then
    "Database connection not ready. Please try again in a moment."
  else if jsIncludes e "timeout" then "Query timeout. Please try again."
  else "Failed to join room: " ++ e

/-- The `join-product-room` handler.  The shop owner is read as
`product.shop?.owner?.toString()`; when it cannot be resolved the handler
emits "Product shop information not available" before the access rule is
ever evaluated.  The access rule admits the requester when it equals the
declared receiver, or either of them equals the shop owner. -/
def joinProductRoom (userId : Id) (productId receiverId : Option Id)
    (env : JPEnv) : List Action :=
  if ¬ env.dbReady then
    [errEmit "Database not connected. Please try again." none]
  else if ¬ env.connOk then
    [errEmit "Database connection lost. Please try again." none]
  else
    match jsOptId productId, jsOptId receiverId with
    | some pid, some rid =>
        match (if env.queryTimeout then
                 .error "Product query timeout after 5 seconds"
               else getProductWithShop env.dbAvailable env.findProduct env.findShop :
                 Except String (Option ProductDoc)) with
        | .error e => [errEmit (jpCatchMessage e) (some e)]
        | .ok none => [errEmit ("Product not found: " ++ pid) none]
        | .ok (some product) =>
            match product.shop.bind (·.owner) with
            | none => [errEmit "Product shop information not available" none]
            | some owner =>
                if userId = rid ∨ owner = userId ∨ owner = rid then
                  [.joinChannel (joinProductRoomName pid userId rid),
                   .emit .originator "joined-room"
                     (.joinedRoom (joinProductRoomName pid userId rid) pid)]
                else
                  [errEmit "Access denied. You do not have permission to join this room." none]
    | _, _ => [errEmit "Product ID and receiver ID are required" none]

/-! ## send-message handler -/

/-- Room name computed by the product branch of the send-message handler
(same sorted composition as the join path). -/
def sendProductRoomName (productId userId receiver : Id) : String :=
  let userIds := sortPair userId receiver
  "product-" ++ productId ++ "-" ++ userIds.1 ++ "-" ++ userIds.2

/-- Inbound payload of a send-message event. -/
structure SendData where
  quotationId : Option Id
  rfqId : Option Id
  productId : Option Id
  receiver : Option Id
  message : Option String
  attachments : Option (List String)
deriving DecidableEq, Repr

/-- Environment of one send-message run: the readiness gate, the thread
lookups of the three branches, and the persistence environment. -/
structure SendEnv where
  dbReady : Bool
  quotation : Except String (Option QuotationDoc)
  quotationRfq : Except String (Option RFQDoc)
  rfq : Except String (Option RFQDoc)
  dbAvailable : Bool
  findProduct : Except String (Option RawProduct)
  findShop : Except String (Option ShopDoc)
  save : SaveEnv
deriving DecidableEq, Repr

/-- The catch block of send-message. -/
def sendCatch (e : String) : Action :=
  errEmit ("Failed to send message: " ++ jsOrStr e "Unknown error") (some e)

/-- Thread routing of send-message (the `if (quotationId) ... else if (rfqId)
... else if (productId)` chain): either an early exit with the emitted
actions, or the room name for the broadcast. -/
def sendRoute (userId : Id) (qid rid pid : Option Id) (receiver : Id)
    (env : SendEnv) : Sum (List Action) String :=
  match qid with
  | some q =>
      match env.quotation with
      | .error e => .inl [sendCatch e]
      | .ok none => .inl [errEmit "Quotation not found" none]
      | .ok (some quotation) =>
          match env.quotationRfq with
          | .error e => .inl [sendCatch e]
          | .ok none =>
              .inl [sendCatch "Cannot read properties of null (reading requestedBy)"]
          | .ok (some rfq) =>
              if quotation.quotedBy ≠ userId ∧ rfq.requestedBy ≠ userId then
                .inl [errEmit "Access denied" none]
              else if receiver ≠ quotation.quotedBy ∧ receiver ≠ rfq.requestedBy then
                .inl [errEmit "Invalid receiver" none]
              else .inr ("quotation-" ++ q)
  | none =>
      match rid with
      | some r =>
          match env.rfq with
          | .error e => .inl [sendCatch e]
          | .ok none => .inl [errEmit "RFQ not found" none]
          | .ok (some rfq) =>
              if rfq.requestedBy ≠ userId then .inl [errEmit "Access denied" none]
              else .inr ("rfq-" ++ r)
      | none =>
          match pid with
          | some p =>
              match getProductWithShop env.dbAvailable env.findProduct env.findShop with
              | .error e => .inl [sendCatch e]
              | .ok none => .inl [errEmit "Product not found" none]
              | .ok (some product) =>
                  if product.shop.bind (·.owner) ≠ some receiver ∧ userId ≠ receiver then
                    .inl [errEmit "Access denied" none]
                  else .inr (sendProductRoomName p userId receiver)
          | none => .inl []

/-- The `send-message` handler.  After routing, the draft passed to
`saveMessageNative` carries all three `x || null` thread fields of the
inbound payload; on success the formatted message is broadcast to the
thread room (`message-received`) and to the receiver's personal room
(`new-message`) with the same payload. -/
def sendMessage (userId : Id) (data : SendData) (env : SendEnv) : List Action :=
  if ¬ env.dbReady then
    [errEmit "Database not connected. Please try again." none]
  else
    match jsOptId data.message, jsOptId data.receiver with
    | some msg, some receiver =>
        if jsOptId data.quotationId = none ∧ jsOptId data.rfqId = none ∧
            jsOptId data.productId = none then
          [errEmit "Either quotationId, rfqId, or productId is required" none]
        else
          match sendRoute userId (jsOptId data.quotationId) (jsOptId data.rfqId)
              (jsOptId data.productId) receiver env with
          | .inl actions => actions
          | .inr room =>
              (saveMessageNative env.save
                { quotation := jsOptId data.quotationId
                  rfq := jsOptId data.rfqId
                  product := jsOptId data.productId
                  sender := userId
                  receiver := receiver
                  message := msg
                  attachments := data.attachments.getD [] }).2.map .dbWrite ++
                match (saveMessageNative env.save
                    { quotation := jsOptId data.quotationId
                      rfq := jsOptId data.rfqId
                      product := jsOptId data.productId
                      sender := userId
                      receiver := receiver
                      message := msg
                      attachments := data.attachments.getD [] }).1 with
                | .error e => [sendCatch e]
                | .ok saved =>
                    [.emit (.room room) "message-received"
                       (.msg (formatMessage saved) (jsOptId data.quotationId)
                         (jsOptId data.rfqId) (jsOptId data.productId)),
                     .emit (.room ("user-" ++ receiver)) "new-message"
                       (.msg (formatMessage saved) (jsOptId data.quotationId)
                         (jsOptId data.rfqId) (jsOptId data.productId))]
    | _, _ => [errEmit "Message and receiver are required" none]

/-! ## typing / stop-typing handlers -/

/-- Room name computed by the typing and stop-typing handlers for a product
thread: `product-{productId}-{receiverId}` — three segments, no sorting. -/
def typingProductRoomName (productId receiverId : Id) : String :=
  "product-" ++ productId ++ "-" ++ receiverId

/-- Inbound payload of a typing / stop-typing event. -/
structure TypingData where
  quotationId : Option Id
  rfqId : Option Id
  productId : Option Id
  receiverId : Option Id
deriving DecidableEq, Repr

/-- The `typing` (with `tflag = true`) and `stop-typing` (`tflag = false`)
handlers: both compute the room the same way and emit `user-typing` to it. -/
def typingHandler (userId : Id) (d : TypingData) (tflag : Bool) : List Action :=
  match jsOptId d.productId, jsOptId d.receiverId with
  | some pid, some rid =>
      [.emit (.room (typingProductRoomName pid rid)) "user-typing"
        (.typingInd userId tflag)]
  | _, _ =>
      match jsOptId d.quotationId with
      | some qid =>
          [.emit (.room ("quotation-" ++ qid)) "user-typing" (.typingInd userId tflag)]
      | none =>
          match jsOptId d.rfqId with
          | some rid =>
              [.emit (.room ("rfq-" ++ rid)) "user-typing" (.typingInd userId tflag)]
          | none => []

/-! ## Shared helper lemmas -/

theorem ne_empty_append (s t : String) (hs : s.data ≠ []) : (s ++ t) ≠ "" := by
  intro h
  have hd : s.data ++ t.data = ([] : List Char) := by
    simpa [String.data_append] using congrArg String.data h
  rcases List.append_eq_nil.mp hd with ⟨h1, _⟩
  exact hs h1

/-! ## C4: product channel key symmetry -/

/-- C4: for any two distinct identities `a ≠ b` and product id `p`, the
product channel key computed from `(a, b)` equals the key computed from
`(b, a)`, in both the room-join path and the send-message path, and the two
paths compute the identical key. -/
theorem product_channel_key_symmetric (p a b : Id) (_hab : a ≠ b) :
    joinProductRoomName p a b = joinProductRoomName p b a ∧
    sendProductRoomName p a b = sendProductRoomName p b a ∧
    joinProductRoomName p a b = sendProductRoomName p a b := by
  unfold joinProductRoomName sendProductRoomName
  rw [sortPair_comm a b]
  exact ⟨rfl, rfl, rfl⟩

/-- Witness for C4 at the concrete input `p = "p1"`, `a = "u1"`, `b = "u2"`. -/
theorem product_channel_key_symmetric_witness :
    ("u1" : String) ≠ "u2" ∧
    joinProductRoomName "p1" "u1" "u2" = joinProductRoomName "p1" "u2" "u1" :=
  ⟨by decide, (product_channel_key_symmetric "p1" "u1" "u2" (by decide)).1⟩

/-! ## C6: readiness gate bound -/

theorem waitForDBAux_unready (obs : Nat → DBObs)
    (h : ∀ j, attemptOk (obs j) = false) :
    ∀ fuel i, waitForDBAux obs i fuel = false := by
  intro fuel
  induction fuel with
  | zero => intro i; rfl
  | succ n ih =>
    intro i
    have hi := h i
    unfold waitForDBAux
    by_cases hc : (obs i).readyState = 1 ∧ (obs i).dbAvailable = true
    · rw [if_pos hc]
      cases hp : (obs i).probeOk
      · simpa [hp] using ih (i + 1)
      · exfalso
        simp [attemptOk, hc.1, hc.2, hp] at hi
    · rw [if_neg hc]
      exact ih (i + 1)

theorem waitForDBAux_congr (obs obs2 : Nat → DBObs) :
    ∀ fuel i, (∀ j, i ≤ j → j < i + fuel → obs j = obs2 j) →
      waitForDBAux obs i fuel = waitForDBAux obs2 i fuel := by
  intro fuel
  induction fuel with
  | zero => intro i _; rfl
  | succ n ih =>
    intro i hagree
    have h0 : obs i = obs2 i := hagree i (Nat.le_refl i) (by omega)
    have hrest : ∀ j, i + 1 ≤ j → j < (i + 1) + n → obs j = obs2 j := by
      intro j h1 h2
      exact hagree j (by omega) (by omega)
    unfold waitForDBAux
    rw [h0, ih (i + 1) hrest]

/-- C6: against a persistently-unready backend, `waitForDB` terminates with
a not-ready outcome (`false`) after its bounded retry budget — it consults at
most the first `maxRetries` observations — and an attempt that sees the
connected state flag but a failing probe is a transient miss that continues
the loop with one unit of fuel spent rather than failing immediately. -/
theorem waitForDB_bounded_not_ready (obs : Nat → DBObs) (maxRetries : Nat)
    (hunready : ∀ i, attemptOk (obs i) = false) :
    waitForDB obs maxRetries = false ∧
    (∀ obs2 : Nat → DBObs, (∀ j, j < maxRetries → obs j = obs2 j) →
      waitForDB obs maxRetries = waitForDB obs2 maxRetries) ∧
    (∀ (obs3 : Nat → DBObs) (i fuel : Nat),
      (obs3 i).readyState = 1 → (obs3 i).dbAvailable = true →
      (obs3 i).probeOk = false →
      waitForDBAux obs3 i (fuel + 1) = waitForDBAux obs3 (i + 1) fuel) := by
  refine ⟨waitForDBAux_unready obs hunready maxRetries 0, ?_, ?_⟩
  · intro obs2 hagree
    exact waitForDBAux_congr obs obs2 maxRetries 0
      (fun j _ hj => hagree j (by omega))
  · intro obs3 i fuel h1 h2 h3
    conv_lhs => rw [waitForDBAux]
    rw [if_pos ⟨h1, h2⟩, h3]
    simp

/-- Witness for C6: a backend that is observed disconnected forever; the
default budget of 15 attempts yields not-ready. -/
theorem waitForDB_bounded_not_ready_witness :
    (∀ i, attemptOk ((fun _ => ⟨0, false, false⟩ : Nat → DBObs) i) = false) ∧
    waitForDB (fun _ => ⟨0, false, false⟩) 15 = false :=
  ⟨fun _ => rfl,
   (waitForDB_bounded_not_ready (fun _ => ⟨0, false, false⟩) 15 (fun _ => rfl)).1⟩

/-! ## C7: authentication failure indistinguishability -/

/-- C7: with the verification secret configured, any two tokens that fail
verification — for any reason (`malformed`, `expired`, `badSignature`) —
produce the identical caller-observable outcome `authFailed`; with the
secret absent, the outcome is the distinct `misconfigured`. -/
theorem auth_failures_indistinguishable
    (verify : String → String → Except VerifyError (String × String))
    (secret : String) (h1 h2 : Handshake) (t1 t2 : String)
    (e1 e2 : VerifyError)
    (hs : secret ≠ "")
    (hx1 : extractToken h1 = some t1) (ht1 : t1 ≠ "")
    (hv1 : verify t1 secret = .error e1)
    (hx2 : extractToken h2 = some t2) (ht2 : t2 ≠ "")
    (hv2 : verify t2 secret = .error e2) :
    authenticate verify secret h1 = .authFailed ∧
    authenticate verify secret h1 = authenticate verify secret h2 ∧
    authenticate verify "" h1 = .misconfigured ∧
    AuthOutcome.misconfigured ≠ AuthOutcome.authFailed := by
  refine ⟨?_, ?_, ?_, by decide⟩
  · simp [authenticate, hx1, ht1, hs, hv1]
  · simp [authenticate, hx1, hx2, ht1, ht2, hs, hv1, hv2]
  · simp [authenticate, hx1, ht1]

/-- Witness for C7: one expired and one bad-signature token under the same
secret both map to `authFailed`; the missing secret maps to
`misconfigured`. -/
theorem auth_failures_indistinguishable_witness :
    authenticate
      (fun t _ => if t = "tok1" then .error .expired else .error .badSignature)
      "s3cr3t" ⟨some "tok1", none⟩ = .authFailed ∧
    authenticate
      (fun t _ => if t = "tok1" then .error .expired else .error .badSignature)
      "s3cr3t" ⟨some "tok1", none⟩ =
    authenticate
      (fun t _ => if t = "tok1" then .error .expired else .error .badSignature)
      "s3cr3t" ⟨some "tok2", none⟩ ∧
    authenticate
      (fun t _ => if t = "tok1" then .error .expired else .error .badSignature)
      "" ⟨some "tok1", none⟩ = .misconfigured := by
  have h := auth_failures_indistinguishable
    (fun t _ => if t = "tok1" then .error .expired else .error .badSignature)
    "s3cr3t" ⟨some "tok1", none⟩ ⟨some "tok2", none⟩ "tok1" "tok2"
    .expired .badSignature (by decide) rfl (by decide) (by decide)
    rfl (by decide) (by decide)
  exact ⟨h.1, h.2.1, h.2.2.1⟩

/-! ## C10: typing-indicator room mismatch on product threads -/

/-- C10: the room the typing / stop-typing handlers compute for a product
thread has three segments (`product-{productId}-{receiverId}`) while the
room that join-product-room and send-message compute has four
(`product-{productId}-{sorted[0]}-{sorted[1]}`); for a hyphen-free receiver
id the two never coincide, for any pair of participant identities, so the
product-thread typing indicator goes to a room that neither participant has
joined. -/
theorem typing_room_never_joined (pid rid a b : Id)
    (hp : pid ≠ "") (hrne : rid ≠ "")
    (hr : ('-') ∉ rid.data) :
    typingProductRoomName pid rid ≠ joinProductRoomName pid a b ∧
    (∀ (u : Id) (qid rfqid : Option Id) (t : Bool),
      typingHandler u ⟨qid, rfqid, some pid, some rid⟩ t =
        [.emit (.room (typingProductRoomName pid rid)) "user-typing"
          (.typingInd u t)]) := by
  constructor
  · intro h
    have hd := congrArg (fun s => List.count '-' s.data) h
    simp only [typingProductRoomName, joinProductRoomName,
      String.data_append, List.count_append] at hd
    have c0 : List.count '-' rid.data = 0 := List.count_eq_zero.mpr hr
    have c1 : List.count '-' ("product-" : String).data = 1 := by decide
    have c2 : List.count '-' ("-" : String).data = 1 := by decide
    rw [c0, c1, c2] at hd
    omega
  · intro u qid rfqid t
    simp [typingHandler, jsOptId, hp, hrne]

/-- Witness for C10 at `productId = "p1"`, `receiverId = "u2"`, and the
joined pair `("u1", "u2")`. -/
theorem typing_room_never_joined_witness :
    typingProductRoomName "p1" "u2" ≠ joinProductRoomName "p1" "u1" "u2" :=
  (typing_room_never_joined "p1" "u2" "u1" "u2" (by decide) (by decide)
    (by decide)).1

/-! ## C5: non-product room-join authorization matrix -/

/-- C5: with the database ready and the records found, a quotation-room join
succeeds exactly when the identity equals the quotation's `quotedBy` or the
parent RFQ's `requestedBy`, and an RFQ-room join succeeds exactly when the
identity equals the RFQ's `requestedBy`; every other identity receives the
"Access denied" error and no channel join. -/
theorem join_room_authorization_matrix (userId qid rid : Id)
    (q : QuotationDoc) (rfq rfq2 : RFQDoc)
    (hq : qid ≠ "") (hr : rid ≠ "") :
    joinQuotationRoom userId (some qid) ⟨true, .ok (some q), .ok (some rfq)⟩ =
      (if q.quotedBy = userId ∨ rfq.requestedBy = userId then
        [.joinChannel ("quotation-" ++ qid),
         .emit .originator "joined-room" (.joinedRoom ("quotation-" ++ qid) qid)]
      else [errEmit "Access denied" none]) ∧
    joinRfqRoom userId (some rid) ⟨true, .ok (some rfq2)⟩ =
      (if rfq2.requestedBy = userId then
        [.joinChannel ("rfq-" ++ rid),
         .emit .originator "joined-room" (.joinedRoom ("rfq-" ++ rid) rid)]
      else [errEmit "Access denied" none]) := by
  constructor
  · by_cases hall : q.quotedBy = userId ∨ rfq.requestedBy = userId
    · have hne : ¬ (q.quotedBy ≠ userId ∧ rfq.requestedBy ≠ userId) := by
        rcases hall with h | h <;> simp [h]
      simp [joinQuotationRoom, jsOptId, hq, hne, hall]
    · have hne : q.quotedBy ≠ userId ∧ rfq.requestedBy ≠ userId := by
        constructor <;> intro h <;> exact hall (by simp [h])
      simp [joinQuotationRoom, jsOptId, hq, hne, hall]
  · by_cases hall : rfq2.requestedBy = userId
    · simp [joinRfqRoom, jsOptId, hr, hall]
    · simp [joinRfqRoom, jsOptId, hr, hall]

/-- Witness for C5: `u1` is the quoter of `q1`, so the join succeeds; the
same environment denies `u3`, and an RFQ join by its requester succeeds. -/
theorem join_room_authorization_matrix_witness :
    joinQuotationRoom "u1" (some "q1")
      ⟨true, .ok (some ⟨"u1", "r1"⟩), .ok (some ⟨"u2"⟩)⟩ =
      [.joinChannel "quotation-q1",
       .emit .originator "joined-room" (.joinedRoom "quotation-q1" "q1")] ∧
    joinQuotationRoom "u3" (some "q1")
      ⟨true, .ok (some ⟨"u1", "r1"⟩), .ok (some ⟨"u2"⟩)⟩ =
      [errEmit "Access denied" none] := by
  have h1 := (join_room_authorization_matrix "u1" "q1" "r1" ⟨"u1", "r1"⟩ ⟨"u2"⟩
    ⟨"u1"⟩ (by decide) (by decide)).1
  have h2 := (join_room_authorization_matrix "u3" "q1" "r1" ⟨"u1", "r1"⟩ ⟨"u2"⟩
    ⟨"u1"⟩ (by decide) (by decide)).1
  rw [h1, h2]
  constructor <;> decide

/-! ## C1: product-room join with an unresolved shop owner -/

/-- Counterexample to C1: the requester IS the declared counterpart
(`userId = receiverId = "u1"`) and the shop owner is unresolved (the shop
lookup throws, the resolver yields a null owner), yet the join is NOT
decided by the product access rule — the handler rejects the whole
operation with "Product shop information not available" and performs no
channel join. -/
theorem join_product_null_owner_counterexample :
    joinProductRoom "u1" (some "p1") (some "u1")
      ⟨true, true, true, .ok (some ⟨some "s1"⟩), .error "shop lookup failed", false⟩ =
      [errEmit "Product shop information not available" none] ∧
    Action.joinChannel (joinProductRoomName "p1" "u1" "u1") ∉
      joinProductRoom "u1" (some "p1") (some "u1")
        ⟨true, true, true, .ok (some ⟨some "s1"⟩), .error "shop lookup failed", false⟩ := by
  constructor <;> decide

/-- C1 (amended): when the product's shop owner cannot be resolved, the
join-product-room handler denies EVERY identity — including one equal to
the declared counterpart — with the shop-information-unavailable error,
before the access rule is evaluated; the failed shop lookup itself is
non-fatal to the resolver, which returns the product with a null shop
rather than propagating the error. -/
theorem join_product_null_owner_denies_all (userId pid rid sid e : Id)
    (hp : pid ≠ "") (hr : rid ≠ "") :
    joinProductRoom userId (some pid) (some rid)
      ⟨true, true, true, .ok (some ⟨some sid⟩), .error e, false⟩ =
      [errEmit "Product shop information not available" none] ∧
    getProductWithShop true (.ok (some ⟨some sid⟩)) (.error e) =
      .ok (some ⟨none⟩) := by
  constructor
  · simp [joinProductRoom, jsOptId, hp, hr, getProductWithShop]
  · simp [getProductWithShop]

/-- Witness for C1 (amended) at the requester equal to the counterpart. -/
theorem join_product_null_owner_denies_all_witness :
    joinProductRoom "u1" (some "p1") (some "u1")
      ⟨true, true, true, .ok (some ⟨some "s1"⟩), .error "boom", false⟩ =
      [errEmit "Product shop information not available" none] :=
  (join_product_null_owner_denies_all "u1" "p1" "u1" "s1" "boom"
    (by decide) (by decide)).1

/-! ## C2: thread-reference validation in the message store -/

/-- A stored message as read back in a healthy run. -/
def storedOk : StoredMessage :=
  ⟨"m1", some "q1", some "r1", none, .oid "u1", "u2", "hi", [], none, 100⟩

/-- A healthy persistence environment: connected, ping ok, insert and
read-back succeed, sender enrichment finds nothing. -/
def saveEnvOk : SaveEnv :=
  ⟨1, true, .ok (), 100, .ok (some "m1"), .ok (some storedOk), .ok none⟩

/-- Counterexample to C2: a draft with BOTH `quotation` and `rfq` set does
NOT fail validation — the store only rejects drafts with zero references,
so this draft is written (the write list is non-empty) and the exclusivity
validation error is not raised. -/
theorem draft_multi_ref_counterexample :
    (saveMessageNative saveEnvOk
      ⟨some "q1", some "r1", none, "u1", "u2", "hi", []⟩).2 ≠ [] ∧
    (saveMessageNative saveEnvOk
      ⟨some "q1", some "r1", none, "u1", "u2", "hi", []⟩).1 ≠
      .error "Either quotation, rfq, or product must be provided" := by
  constructor <;> decide

/-- C2 (amended): persisting a draft with zero of the thread-reference
fields {quotation, rfq, product} set always fails validation before any
write occurs (under any environment, no write is issued); a draft with at
least one field set — exactly one or more than one alike — passes this
validation, and with a live connection the write is issued. -/
theorem draft_reference_validation (env : SaveEnv) (d : Draft)
    (hconn : env.readyState = 1) (hdb : env.dbAvailable = true)
    (hping : env.ping = .ok ()) :
    ((jsOptId d.quotation = none ∧ jsOptId d.rfq = none ∧ jsOptId d.product = none) →
      saveMessageNative env d =
        (.error "Either quotation, rfq, or product must be provided", []) ∧
      ∀ env2 : SaveEnv, (saveMessageNative env2 d).2 = []) ∧
    (¬ (jsOptId d.quotation = none ∧ jsOptId d.rfq = none ∧ jsOptId d.product = none) →
      (saveMessageNative env d).2 ≠ []) := by
  constructor
  · intro hz
    constructor
    · simp [saveMessageNative, hconn, hdb, hping, hz.1, hz.2.1, hz.2.2]
    · intro env2
      unfold saveMessageNative
      by_cases h1 : env2.readyState ≠ 1
      · simp [h1]
      · by_cases h2 : env2.dbAvailable = true
        · cases h3 : env2.ping with
          | error e => simp [h1, h2, h3]
          | ok u => simp [h1, h2, h3, hz.1, hz.2.1, hz.2.2]
        · simp [h1, h2]
  · intro hnz
    unfold saveMessageNative
    simp only [hconn, hdb, hping]
    rw [if_neg (by omega), if_neg (by simp)]
    rw [if_neg hnz]
    cases hI : env.insertResult with
    | error e => simp
    | ok oid =>
        cases oid with
        | none => simp
        | some iid =>
            cases hF : env.findResult with
            | error e => simp
            | ok om =>
                cases om with
                | none => simp
                | some saved =>
                    cases hs : saved.sender <;>
                      cases hL : env.senderLookup <;> simp

/-- Witness for C2 (amended): a zero-reference draft is rejected with no
write; a single-reference draft passes validation and is written. -/
theorem draft_reference_validation_witness :
    saveMessageNative saveEnvOk ⟨none, none, none, "u1", "u2", "hi", []⟩ =
      (.error "Either quotation, rfq, or product must be provided", []) ∧
    (saveMessageNative saveEnvOk
      ⟨some "q1", none, none, "u1", "u2", "hi", []⟩).2 ≠ [] := by
  have h1 := (draft_reference_validation saveEnvOk
    ⟨none, none, none, "u1", "u2", "hi", []⟩ rfl rfl rfl).1 (by decide)
  have h2 := (draft_reference_validation saveEnvOk
    ⟨some "q1", none, none, "u1", "u2", "hi", []⟩ rfl rfl rfl).2 (by decide)
  exact ⟨h1.1, h2⟩

/-! ## C3: receiver validation per send-message branch -/

/-- The writes issued by a healthy `saveMessageNative` run whose draft
passes the reference validation: exactly the constructed document. -/
theorem saveMessageNative_writes (env : SaveEnv) (d : Draft)
    (hconn : env.readyState = 1) (hdb : env.dbAvailable = true)
    (hping : env.ping = .ok ())
    (hnz : ¬ (jsOptId d.quotation = none ∧ jsOptId d.rfq = none ∧
      jsOptId d.product = none)) :
    (saveMessageNative env d).2 =
      [⟨jsOptId d.quotation, jsOptId d.rfq, jsOptId d.product, d.sender,
        d.receiver, d.message, d.attachments, none, env.now⟩] := by
  unfold saveMessageNative
  simp only [hconn, hdb, hping]
  rw [if_neg (by omega), if_neg (by simp)]
  rw [if_neg hnz]
  cases hI : env.insertResult with
  | error e => simp
  | ok oid =>
      cases oid with
      | none => simp
      | some iid =>
          cases hF : env.findResult with
          | error e => simp
          | ok om =>
              cases om with
              | none => simp
              | some saved =>
                  cases hs : saved.sender <;>
                    cases hL : env.senderLookup <;> simp

/-- A stored message matching the counterexample run. -/
def storedC3 : StoredMessage :=
  ⟨"m2", none, some "r1", none, .oid "u1", "u9", "hi", [], none, 100⟩

/-- Environment of the counterexample run: sender `u1` is the RFQ
requester, persistence is healthy. -/
def sendEnvC3 : SendEnv :=
  ⟨true, .ok none, .ok none, .ok (some ⟨"u1"⟩), true, .ok none, .ok none,
   ⟨1, true, .ok (), 100, .ok (some "m2"), .ok (some storedC3), .ok none⟩⟩

/-- Counterexample to C3: on an RFQ thread, a declared receiver `u9` that is
NOT one of the two legitimate parties is not rejected — no InvalidReceiver
outcome is emitted and the message IS persisted (a write is issued). -/
theorem send_receiver_validation_counterexample :
    Action.dbWrite ⟨none, some "r1", none, "u1", "u9", "hi", [], none, 100⟩ ∈
      sendMessage "u1" ⟨none, some "r1", none, some "u9", some "hi", some []⟩
        sendEnvC3 ∧
    errEmit "Invalid receiver" none ∉
      sendMessage "u1" ⟨none, some "r1", none, some "u9", some "hi", some []⟩
        sendEnvC3 := by
  constructor <;> decide

/-- C3 (amended): the declared-receiver validation is branch-specific.
(1) Quotation branch: a receiver that is neither `quotedBy` nor the parent
RFQ's `requestedBy` is denied with "Invalid receiver" and nothing is
persisted.  (2) RFQ branch: there is no receiver validation — when the
sender is the RFQ requester, the message is persisted for ANY declared
receiver.  (3) Product branch: a receiver that is neither the resolved shop
owner nor the sender is denied with "Access denied" (not InvalidReceiver)
and nothing is persisted. -/
theorem send_receiver_validation_by_branch
    (userId receiver m qid rid pid : Id)
    (q : QuotationDoc) (rfqQ rfq : RFQDoc) (prod : ProductDoc)
    (qE : Except String (Option QuotationDoc))
    (qrE rE : Except String (Option RFQDoc))
    (dbA : Bool) (fP : Except String (Option RawProduct))
    (fS : Except String (Option ShopDoc)) (senv : SaveEnv)
    (hqid : qid ≠ "") (hrid : rid ≠ "") (hpid : pid ≠ "")
    (hm : m ≠ "") (hrecv : receiver ≠ "") :
    ((q.quotedBy = userId ∨ rfqQ.requestedBy = userId) →
      receiver ≠ q.quotedBy → receiver ≠ rfqQ.requestedBy →
      sendMessage userId ⟨some qid, none, none, some receiver, some m, some []⟩
        ⟨true, .ok (some q), .ok (some rfqQ), rE, dbA, fP, fS, senv⟩ =
        [errEmit "Invalid receiver" none]) ∧
    (rfq.requestedBy = userId →
      senv.readyState = 1 → senv.dbAvailable = true → senv.ping = .ok () →
      Action.dbWrite ⟨none, some rid, none, userId, receiver, m, [], none, senv.now⟩ ∈
        sendMessage userId ⟨none, some rid, none, some receiver, some m, some []⟩
          ⟨true, qE, qrE, .ok (some rfq), dbA, fP, fS, senv⟩) ∧
    (getProductWithShop dbA fP fS = .ok (some prod) →
      prod.shop.bind (·.owner) ≠ some receiver → userId ≠ receiver →
      sendMessage userId ⟨none, none, some pid, some receiver, some m, some []⟩
        ⟨true, qE, qrE, rE, dbA, fP, fS, senv⟩ =
        [errEmit "Access denied" none]) := by
  refine ⟨?_, ?_, ?_⟩
  · intro hall hb1 hb2
    have hacc : ¬ (q.quotedBy ≠ userId ∧ rfqQ.requestedBy ≠ userId) := by
      rcases hall with h | h <;> simp [h]
    simp [sendMessage, sendRoute, jsOptId, hm, hrecv, hqid, hacc, hb1, hb2]
  · intro hreq hconn hdb hping
    have hw := saveMessageNative_writes senv
      ⟨none, some rid, none, userId, receiver, m, []⟩ hconn hdb hping
      (by simp [jsOptId, hrid])
    simp [sendMessage, sendRoute, jsOptId, hm, hrecv, hrid, hreq, hw]
  · intro hprod hb1 hb2
    simp [sendMessage, sendRoute, jsOptId, hm, hrecv, hpid, hprod, hb1, hb2]

/-- Witness for C3 (amended) at concrete inputs: quotation thread denies the
outsider receiver, RFQ thread persists to the outsider receiver, product
thread denies with "Access denied". -/
theorem send_receiver_validation_by_branch_witness :
    sendMessage "u1" ⟨some "q1", none, none, some "u9", some "hi", some []⟩
      ⟨true, .ok (some ⟨"u1", "rX"⟩), .ok (some ⟨"u2"⟩), .ok none, true,
       .ok none, .ok none, saveEnvOk⟩ =
      [errEmit "Invalid receiver" none] ∧
    Action.dbWrite ⟨none, some "r1", none, "u1", "u9", "hi", [], none, 100⟩ ∈
      sendMessage "u1" ⟨none, some "r1", none, some "u9", some "hi", some []⟩
        ⟨true, .ok none, .ok none, .ok (some ⟨"u1"⟩), true, .ok none, .ok none,
         saveEnvOk⟩ ∧
    sendMessage "u1" ⟨none, none, some "p1", some "u9", some "hi", some []⟩
      ⟨true, .ok none, .ok none, .ok none, true, .ok (some ⟨some "s1"⟩),
       .ok (some ⟨some "u7"⟩), saveEnvOk⟩ =
      [errEmit "Access denied" none] := by
  have h := send_receiver_validation_by_branch "u1" "u9" "hi" "q1" "r1" "p1"
    ⟨"u1", "rX"⟩ ⟨"u2"⟩ ⟨"u1"⟩ ⟨some ⟨some "u7"⟩⟩
    (.ok none) (.ok none) (.ok none) true (.ok (some ⟨some "s1"⟩))
    (.ok (some ⟨some "u7"⟩)) saveEnvOk
    (by decide) (by decide) (by decide) (by decide) (by decide)
  exact ⟨h.1 (Or.inl rfl) (by decide) (by decide),
    h.2.1 rfl rfl rfl rfl,
    h.2.2 (by decide) (by decide) (by decide)⟩

/-! ## C8: delivery fan-out with identical payloads -/

/-- C8: a successfully persisted send-message (here on an RFQ thread whose
requester is the sender) emits the serialized message both as a
`message-received` event to the thread's room and as a `new-message` event
to the receiver's private `user-{receiver}` room, and the two emissions
carry the very same payload (`.msg fm none (some rid) none` with the same
formatted message `fm`). -/
theorem send_broadcast_fanout (userId rid receiver m sid insId : Id)
    (atts : List String) (nowv : Nat) (saved : StoredMessage) (u : UserProj)
    (qE : Except String (Option QuotationDoc))
    (qrE : Except String (Option RFQDoc))
    (dbA : Bool) (fP : Except String (Option RawProduct))
    (fS : Except String (Option ShopDoc))
    (hrid : rid ≠ "") (hrecv : receiver ≠ "") (hm : m ≠ "")
    (hsender : saved.sender = .oid sid) :
    sendMessage userId ⟨none, some rid, none, some receiver, some m, some atts⟩
      ⟨true, qE, qrE, .ok (some ⟨userId⟩), dbA, fP, fS,
       ⟨1, true, .ok (), nowv, .ok (some insId), .ok (some saved), .ok (some u)⟩⟩ =
      [.dbWrite ⟨none, some rid, none, userId, receiver, m, atts, none, nowv⟩,
       .emit (.room ("rfq-" ++ rid)) "message-received"
         (.msg (formatMessage { saved with sender := .proj u }) none (some rid) none),
       .emit (.room ("user-" ++ receiver)) "new-message"
         (.msg (formatMessage { saved with sender := .proj u }) none (some rid) none)] := by
  simp [sendMessage, sendRoute, saveMessageNative, jsOptId, hrid, hrecv, hm,
    hsender, formatMessage]

/-- Witness for C8 at concrete inputs. -/
theorem send_broadcast_fanout_witness :
    sendMessage "u1" ⟨none, some "r1", none, some "u2", some "hi", some []⟩
      ⟨true, .ok none, .ok none, .ok (some ⟨"u1"⟩), true, .ok none, .ok none,
       ⟨1, true, .ok (), 5, .ok (some "m3"),
        .ok (some ⟨"m3", none, some "r1", none, .oid "u1", "u2", "hi", [], none, 5⟩),
        .ok (some ⟨"u1", "alice", "a@x", "p"⟩)⟩⟩ =
      [.dbWrite ⟨none, some "r1", none, "u1", "u2", "hi", [], none, 5⟩,
       .emit (.room "rfq-r1") "message-received"
         (.msg (formatMessage ⟨"m3", none, some "r1", none,
            .proj ⟨"u1", "alice", "a@x", "p"⟩, "u2", "hi", [], none, 5⟩)
           none (some "r1") none),
       .emit (.room "user-u2") "new-message"
         (.msg (formatMessage ⟨"m3", none, some "r1", none,
            .proj ⟨"u1", "alice", "a@x", "p"⟩, "u2", "hi", [], none, 5⟩)
           none (some "r1") none)] := by
  have h := send_broadcast_fanout "u1" "r1" "u2" "hi" "u1" "m3" [] 5
    ⟨"m3", none, some "r1", none, .oid "u1", "u2", "hi", [], none, 5⟩
    ⟨"u1", "alice", "a@x", "p"⟩ (.ok none) (.ok none) true (.ok none) (.ok none)
    (by decide) (by decide) (by decide) rfl
  rw [h]
  decide

/-! ## C9: event-scoped failures are recovered at the event boundary -/

/-- An observable success emission: a joined-room confirmation or the
message broadcast. -/
def isSuccessAct : Action → Bool
  | .emit _ ev _ => ev == "joined-room" || ev == "message-received"
  | _ => false

/-- An error event surfaced to the originating session with a non-empty
human-readable message (and, in the catch paths, a details string). -/
def isErrorAct : Action → Bool
  | .emit .originator ev p =>
      ev == "error" &&
        (match p with
         | .err msg _ => msg != ""
         | _ => false)
  | _ => false

/-- A handler run is session-safe: it never disconnects the session, and it
either produced a success emission or surfaced an error event to the
originating session. -/
def sessionSafe (l : List Action) : Prop :=
  Action.disconnect ∉ l ∧ (l.any isSuccessAct = true ∨ l.any isErrorAct = true)

theorem sessionSafe_errEmit (m : String) (d : Option String) (hm : m ≠ "") :
    sessionSafe [errEmit m d] := by
  refine ⟨by simp [errEmit], Or.inr ?_⟩
  simp [errEmit, isErrorAct, hm]

theorem sessionSafe_joined (r : String) (p : Payload) :
    sessionSafe [.joinChannel r, .emit .originator "joined-room" p] := by
  refine ⟨by simp, Or.inl ?_⟩
  simp [isSuccessAct]

theorem jpCatchMessage_ne (e : String) : jpCatchMessage e ≠ "" := by
  unfold jpCatchMessage
  split
  · decide
  · split
    · decide
    · exact ne_empty_append _ _ (by decide)

theorem sessionSafe_sendCatch (e : String) : sessionSafe [sendCatch e] :=
  sessionSafe_errEmit _ _ (ne_empty_append _ _ (by decide))

theorem joinQuotationRoom_sessionSafe (u : Id) (qid : Option Id)
    (env : JQEnv) : sessionSafe (joinQuotationRoom u qid env) := by
  unfold joinQuotationRoom
  repeat' split
  all_goals first
    | exact sessionSafe_errEmit _ _ (by decide)
    | exact sessionSafe_errEmit _ _ (ne_empty_append _ _ (by decide))
    | exact sessionSafe_joined _ _

theorem joinRfqRoom_sessionSafe (u : Id) (rid : Option Id) (env : JREnv) :
    sessionSafe (joinRfqRoom u rid env) := by
  unfold joinRfqRoom
  repeat' split
  all_goals first
    | exact sessionSafe_errEmit _ _ (by decide)
    | exact sessionSafe_errEmit _ _ (ne_empty_append _ _ (by decide))
    | exact sessionSafe_joined _ _

theorem joinProductRoom_sessionSafe (u : Id) (pid rid : Option Id)
    (env : JPEnv) : sessionSafe (joinProductRoom u pid rid env) := by
  unfold joinProductRoom
  repeat' split
  all_goals first
    | exact sessionSafe_errEmit _ _ (by decide)
    | exact sessionSafe_errEmit _ _ (jpCatchMessage_ne _)
    | exact sessionSafe_errEmit _ _ (ne_empty_append _ _ (by decide))
    | exact sessionSafe_joined _ _

/-- Safety of a routing result: an early exit carries session-safe actions;
a computed room is handled downstream. -/
def routeSafe : Sum (List Action) String → Prop
  | .inl actions => sessionSafe actions
  | .inr _ => True

theorem sendRoute_safe (userId : Id) (qid rid pid : Option Id)
    (receiver : Id) (env : SendEnv)
    (hsome : ¬ (qid = none ∧ rid = none ∧ pid = none)) :
    routeSafe (sendRoute userId qid rid pid receiver env) := by
  unfold sendRoute
  repeat' split
  all_goals first
    | exact sessionSafe_errEmit _ _ (by decide)
    | exact sessionSafe_sendCatch _
    | trivial
    | simp at hsome

theorem sessionSafe_persistTail
    (pr : Except String StoredMessage × List MessageDoc)
    (room receiver : String) (qid rid pid : Option Id) :
    sessionSafe (pr.2.map Action.dbWrite ++
      match pr.1 with
      | .error e => [sendCatch e]
      | .ok saved =>
          [.emit (.room room) "message-received"
             (.msg (formatMessage saved) qid rid pid),
           .emit (.room ("user-" ++ receiver)) "new-message"
             (.msg (formatMessage saved) qid rid pid)]) := by
  obtain ⟨res, writes⟩ := pr
  cases res with
  | error e =>
      refine ⟨?_, Or.inr ?_⟩
      · simp [List.mem_append, List.mem_map, sendCatch, errEmit]
      · simp only [List.any_append]
        have : isErrorAct (sendCatch e) = true := by
          simp [sendCatch, errEmit, isErrorAct, ne_empty_append _ _ (by decide :
            ("Failed to send message: " : String).data ≠ [])]
        simp [this]
  | ok saved =>
      refine ⟨?_, Or.inl ?_⟩
      · simp [List.mem_append, List.mem_map]
      · simp only [List.any_append]
        simp [isSuccessAct]

theorem sendMessage_sessionSafe (u : Id) (data : SendData) (env : SendEnv) :
    sessionSafe (sendMessage u data env) := by
  unfold sendMessage
  split
  · exact sessionSafe_errEmit _ _ (by decide)
  · split
    · split
      · exact sessionSafe_errEmit _ _ (by decide)
      · rename_i msg receiver hmsg hrecv hsome
        split
        · rename_i actions hroute
          have hr := sendRoute_safe u (jsOptId data.quotationId)
            (jsOptId data.rfqId) (jsOptId data.productId) receiver env hsome
          rw [hroute] at hr
          exact hr
        · exact sessionSafe_persistTail _ _ _ _ _ _
    · exact sessionSafe_errEmit _ _ (by decide)

/-- C9: every run of the four persistence-touching event handlers — for any
identity, payload and backend environment, covering the failure outcomes
NotReady, NotFound, AccessDenied, InvalidReceiver, ValidationError, Timeout
and WriteError — never disconnects the session, and either succeeds or
surfaces an `error` event to the originating session carrying a non-empty
message (with a details string in the catch paths). -/
theorem event_failures_recovered (u : Id) (qidQ : Option Id) (jq : JQEnv)
    (ridR : Option Id) (jr : JREnv) (pidP ridP : Option Id) (jp : JPEnv)
    (sdata : SendData) (senv : SendEnv) :
    sessionSafe (joinQuotationRoom u qidQ jq) ∧
    sessionSafe (joinRfqRoom u ridR jr) ∧
    sessionSafe (joinProductRoom u pidP ridP jp) ∧
    sessionSafe (sendMessage u sdata senv) :=
  ⟨joinQuotationRoom_sessionSafe u qidQ jq,
   joinRfqRoom_sessionSafe u ridR jr,
   joinProductRoom_sessionSafe u pidP ridP jp,
   sendMessage_sessionSafe u sdata senv⟩

end Sellola
